import Mathlib

/-!
# Sapphire `Core::Db::DbConnection`

A shallow embedding of `src/servers/Server_Common/Database/DbConnection.cpp`.

* The object state is the record `DbConnection`; every member function becomes a function
  on that record.
* The MySQL connector is an external collaborator.  It is a parameter of the development:
  a `Driver` is a family of functions that answer each connector call from the history of
  all connector calls made before it, so any deterministic connector is covered.  A call
  either returns a value or raises a `std::runtime_error`.
* Two instrumentation fields record what the code does to its collaborators:
  `driverCalls` (every connector method invoked, in order) and `logged`
  (every message passed to `g_log.error`).
* Behaviour the C++ leaves undefined or fatal (dereferencing a null `m_pConnection`,
  indexing `m_stmts` past its size, a failed `assert`, an exception leaving a function,
  unlocking a mutex that is not held) is a `Fault`.
-/

namespace Sapphire

/-! ## Collaborator types -/

/-- The bitmask type of `ConnectionFlags`. -/
abbrev ConnectionFlags := Nat

/-- Modelled from the spec: the enumerator `CONNECTION_ASYNC` of `DbConnection.h`, a header
that is not among the sources; the mode bitmask ranges over Sync and Async. -/
def CONNECTION_ASYNC : ConnectionFlags := 1

/-- Modelled from the spec: the enumerator `CONNECTION_SYNCH` of `DbConnection.h`, a header
that is not among the sources; a bit distinct from `CONNECTION_ASYNC`. -/
def CONNECTION_SYNCH : ConnectionFlags := 2

/-- Modelled from the spec: the record `ConnectionInfo` of `DbConnection.h`
(host, user, password, database, port). -/
structure ConnectionInfo where
  user : String
  password : String
  database : String
  host : String
  port : Nat
  deriving DecidableEq, Repr

/-- Identity of a native session object (`Mysql::Connection`). -/
abbrev MysqlConnection := Nat

/-- Identity of a one-off native statement (`Mysql::Statement`). -/
abbrev MysqlStatement := Nat

/-- Identity of a compiled native statement (`Mysql::PreparedStatement`). -/
abbrev MysqlPreparedStatement := Nat

/-- Identity of a native result set (`Mysql::ResultSet`); a `Mysql::ResultSet*` is an
`Option MysqlResultSet`, with `none` for `nullptr`. -/
abbrev MysqlResultSet := Nat

/-- One connector method invocation, with its arguments. -/
inductive DriverCall where
  | connect (host user password : String) (options : List (String × String)) (port : Nat)
  | setSchema (c : MysqlConnection) (database : String)
  | close (c : MysqlConnection)
  | getErrorNo (c : MysqlConnection)
  | ping (c : MysqlConnection)
  | beginTransaction (c : MysqlConnection)
  | rollbackTransaction (c : MysqlConnection)
  | commitTransaction (c : MysqlConnection)
  | createStatement (c : MysqlConnection)
  | execute (st : MysqlStatement) (sql : String)
  | executeQuery (st : MysqlStatement) (sql : String)
  | prepareStatement (c : MysqlConnection) (sql : String)
  | bindParameters (ps : MysqlPreparedStatement) (params : List String)
  | psExecute (ps : MysqlPreparedStatement)
  | psExecuteQuery (ps : MysqlPreparedStatement)
  deriving DecidableEq, Repr

/-- Outcome of a connector call: a returned value, or a raised `std::runtime_error`
carrying its `what()` text. -/
inductive DriverResult (α : Type) where
  | value : α → DriverResult α
  | runtimeError : String → DriverResult α
  deriving DecidableEq, Repr

/-- The connector.  Every method receives the list of connector calls made so far
(the connector's observable history) and its own arguments.  `close` on a session
returns nothing and is not a source of runtime errors (it runs from the destructor). -/
structure Driver where
  connect : List DriverCall → String → String → String → List (String × String) → Nat →
    DriverResult MysqlConnection
  setSchema : List DriverCall → MysqlConnection → String → DriverResult Unit
  getErrorNo : List DriverCall → MysqlConnection → DriverResult Nat
  ping : List DriverCall → MysqlConnection → DriverResult Unit
  beginTransaction : List DriverCall → MysqlConnection → DriverResult Unit
  rollbackTransaction : List DriverCall → MysqlConnection → DriverResult Unit
  commitTransaction : List DriverCall → MysqlConnection → DriverResult Unit
  createStatement : List DriverCall → MysqlConnection → DriverResult MysqlStatement
  execute : List DriverCall → MysqlStatement → String → DriverResult Bool
  executeQuery : List DriverCall → MysqlStatement → String → DriverResult (Option MysqlResultSet)
  prepareStatement : List DriverCall → MysqlConnection → String →
    DriverResult MysqlPreparedStatement
  bindParameters : List DriverCall → MysqlPreparedStatement → List String → DriverResult Unit
  psExecute : List DriverCall → MysqlPreparedStatement → DriverResult Bool
  psExecuteQuery : List DriverCall → MysqlPreparedStatement →
    DriverResult (Option MysqlResultSet)

/-- Ways a member function can end without returning. -/
inductive Fault where
  /-- `m_pConnection->...` on a null `m_pConnection` (undefined behaviour). -/
  | nullSession
  /-- A failed `assert`. -/
  | assertion
  /-- `m_stmts[index]` with `index` not below `m_stmts.size()` (undefined behaviour). -/
  | outOfRange
  /-- A `std::runtime_error` that no handler of the function catches. -/
  | uncaught (what : String)
  /-- `m_mutex.unlock()` on a mutex that is not held (undefined behaviour). -/
  | unlockNotHeld
  deriving DecidableEq, Repr

deriving instance DecidableEq for Except

/-- Modelled from the spec: `DbWorker` of `DbWorker.h`, the background dispatcher bound to
one async connection and the shared operation queue; only the queue it drains is kept. -/
structure DbWorker where
  m_queue : Option Nat
  deriving DecidableEq, Repr

/-- Modelled from the spec: the caller-facing statement handle `Core::Db::PreparedStatement`
of `PreparedStatement.h`: a cached statement id, the bound parameter values, and the native
statement last attached by `setMysqlPS`. -/
structure PreparedStatement where
  m_index : Nat
  params : List String
  m_stmt : Option MysqlPreparedStatement
  deriving DecidableEq, Repr

/-- `PreparedStatement::getIndex`. -/
def PreparedStatement.getIndex (h : PreparedStatement) : Nat := h.m_index

/-- `PreparedStatement::setMysqlPS`. -/
def PreparedStatement.setMysqlPS (h : PreparedStatement) (p : MysqlPreparedStatement) :
    PreparedStatement :=
  { h with m_stmt := some p }

/-- One registration made by the bulk hook. -/
structure Registration where
  index : Nat
  sql : String
  flags : ConnectionFlags
  deriving DecidableEq, Repr

/-! ## The connection object -/

/-- The members of `Core::Db::DbConnection`, followed by the two instrumentation fields.
`m_stmts` is the vector of owning pointers (a slot is `none` when the pointer is null),
`m_queries` is the `PreparedStatementMap` seen as the list of its entries, `m_mutex` is
`true` while the mutex is held. -/
structure DbConnection where
  m_reconnecting : Bool
  m_prepareError : Bool
  m_queue : Option Nat
  m_pConnection : Option MysqlConnection
  m_connectionInfo : ConnectionInfo
  m_connectionFlags : ConnectionFlags
  m_worker : Option DbWorker
  m_stmts : List (Option MysqlPreparedStatement)
  m_queries : List (Nat × (String × ConnectionFlags))
  m_mutex : Bool
  driverCalls : List DriverCall
  logged : List String
  deriving DecidableEq, Repr

namespace DbConnection

/-- Instrumentation: note one connector call. -/
def record (s : DbConnection) (c : DriverCall) : DbConnection :=
  { s with driverCalls := s.driverCalls ++ [c] }

/-- The call `g_log.error( e.what() )`. -/
def logError (s : DbConnection) (what : String) : DbConnection :=
  { s with logged := s.logged ++ [what] }

/-- `DbConnection( ConnectionInfo& )`: the synchronous constructor. -/
def mkSync (connInfo : ConnectionInfo) : DbConnection :=
  { m_reconnecting := false
    m_prepareError := false
    m_queue := none
    m_pConnection := none
    m_connectionInfo := connInfo
    m_connectionFlags := CONNECTION_SYNCH
    m_worker := none
    m_stmts := []
    m_queries := []
    m_mutex := false
    driverCalls := []
    logged := [] }

/-- `DbConnection( LockedWaitQueue*, ConnectionInfo& )`: the asynchronous constructor,
which also creates the worker. -/
def mkAsync (queue : Option Nat) (connInfo : ConnectionInfo) : DbConnection :=
  { m_reconnecting := false
    m_prepareError := false
    m_queue := queue
    m_pConnection := none
    m_connectionInfo := connInfo
    m_connectionFlags := CONNECTION_ASYNC
    m_worker := some { m_queue := queue }
    m_stmts := []
    m_queries := []
    m_mutex := false
    driverCalls := []
    logged := [] }

/-- `close()`: reset the worker, clear the statement cache, and when a session is bound
close it and drop it. -/
def close (s : DbConnection) : DbConnection :=
  let s1 := { s with m_worker := none }
  let s2 := { s1 with m_stmts := [] }
  match s2.m_pConnection with
  | some c => { s2.record (DriverCall.close c) with m_pConnection := none }
  | none => s2

/-- The option map built at the top of `open()`. -/
def openOptions : List (String × String) :=
  [("MYSQL_OPT_RECONNECT", "1"), ("MYSQL_SET_CHARSET_NAME", "utf8")]

/-- `open()`: connect, bind the session, select the schema; a runtime error from either
connector call is logged and answered with `1`, otherwise the result is `0`. -/
def dbOpen (d : Driver) (s : DbConnection) : Nat × DbConnection :=
  let i := s.m_connectionInfo
  let s1 := s.record (DriverCall.connect i.host i.user i.password openOptions i.port)
  match d.connect s.driverCalls i.host i.user i.password openOptions i.port with
  | .runtimeError e => (1, s1.logError e)
  | .value c =>
    let s2 := { s1 with m_pConnection := some c }
    let s3 := s2.record (DriverCall.setSchema c i.database)
    match d.setSchema s2.driverCalls c i.database with
    | .runtimeError e => (1, s3.logError e)
    | .value _ => (0, s3)

/-- `getLastError()`. -/
def getLastError (d : Driver) (s : DbConnection) : Except Fault (Nat × DbConnection) :=
  match s.m_pConnection with
  | none => .error Fault.nullSession
  | some c =>
    match d.getErrorNo s.driverCalls c with
    | .runtimeError e => .error (Fault.uncaught e)
    | .value n => .ok (n, s.record (DriverCall.getErrorNo c))

/-- `ping()`. -/
def ping (d : Driver) (s : DbConnection) : Except Fault DbConnection :=
  match s.m_pConnection with
  | none => .error Fault.nullSession
  | some c =>
    match d.ping s.driverCalls c with
    | .runtimeError e => .error (Fault.uncaught e)
    | .value _ => .ok (s.record (DriverCall.ping c))

/-- `lockIfReady()`: `m_mutex.try_lock()` as one atomic test-and-set of the lock flag
(the spurious failure the C++ standard permits for `try_lock` is left out). -/
def lockIfReady (s : DbConnection) : Bool × DbConnection :=
  if s.m_mutex then (false, s) else (true, { s with m_mutex := true })

/-- `unlock()`: `m_mutex.unlock()`; the C++ standard defines it only for a held mutex. -/
def unlock (s : DbConnection) : Except Fault DbConnection :=
  if s.m_mutex then .ok { s with m_mutex := false } else .error Fault.unlockNotHeld

/-- `beginTransaction()`. -/
def beginTransaction (d : Driver) (s : DbConnection) : Except Fault DbConnection :=
  match s.m_pConnection with
  | none => .error Fault.nullSession
  | some c =>
    match d.beginTransaction s.driverCalls c with
    | .runtimeError e => .error (Fault.uncaught e)
    | .value _ => .ok (s.record (DriverCall.beginTransaction c))

/-- `rollbackTransaction()`. -/
def rollbackTransaction (d : Driver) (s : DbConnection) : Except Fault DbConnection :=
  match s.m_pConnection with
  | none => .error Fault.nullSession
  | some c =>
    match d.rollbackTransaction s.driverCalls c with
    | .runtimeError e => .error (Fault.uncaught e)
    | .value _ => .ok (s.record (DriverCall.rollbackTransaction c))

/-- `commitTransaction()`. -/
def commitTransaction (d : Driver) (s : DbConnection) : Except Fault DbConnection :=
  match s.m_pConnection with
  | none => .error Fault.nullSession
  | some c =>
    match d.commitTransaction s.driverCalls c with
    | .runtimeError e => .error (Fault.uncaught e)
    | .value _ => .ok (s.record (DriverCall.commitTransaction c))

/-- `execute( const std::string& )`: create a one-off statement and execute it; a runtime
error from either connector call is logged and answered with `false`. -/
def execute_sql (d : Driver) (s : DbConnection) (sql : String) :
    Except Fault (Bool × DbConnection) :=
  match s.m_pConnection with
  | none => .error Fault.nullSession
  | some c =>
    let s1 := s.record (DriverCall.createStatement c)
    match d.createStatement s.driverCalls c with
    | .runtimeError e => .ok (false, s1.logError e)
    | .value st =>
      let s2 := s1.record (DriverCall.execute st sql)
      match d.execute s1.driverCalls st sql with
      | .runtimeError e => .ok (false, s2.logError e)
      | .value result => .ok (result, s2)

/-- `query( const std::string& )`: create a one-off statement and run the query; a runtime
error from either connector call is logged and answered with `nullptr`. -/
def query_sql (d : Driver) (s : DbConnection) (sql : String) :
    Except Fault (Option MysqlResultSet × DbConnection) :=
  match s.m_pConnection with
  | none => .error Fault.nullSession
  | some c =>
    let s1 := s.record (DriverCall.createStatement c)
    match d.createStatement s.driverCalls c with
    | .runtimeError e => .ok (none, s1.logError e)
    | .value st =>
      let s2 := s1.record (DriverCall.executeQuery st sql)
      match d.executeQuery s1.driverCalls st sql with
      | .runtimeError e => .ok (none, s2.logError e)
      | .value result => .ok (result, s2)

/-- `getPreparedStatement( index )`: the assertion `index < m_stmts.size()` followed by the
read of slot `index`; the statement `if( !ret ) nullptr;` has no effect. -/
def getPreparedStatement (s : DbConnection) (index : Nat) :
    Except Fault (Option MysqlPreparedStatement) :=
  match s.m_stmts[index]? with
  | none => .error Fault.assertion
  | some ret => .ok ret

/-- `query( PreparedStatement* )`: a null handle and an empty slot are answered with
`nullptr`; otherwise the native statement is attached to the handle, the parameters are
bound and the query is run, a runtime error being logged and answered with `nullptr`.
The result carries the handle as the call leaves it. -/
def query_stmt (d : Driver) (s : DbConnection) (stmt : Option PreparedStatement) :
    Except Fault (Option MysqlResultSet × Option PreparedStatement × DbConnection) :=
  match stmt with
  | none => .ok (none, none, s)
  | some h =>
    match s.getPreparedStatement h.getIndex with
    | .error f => .error f
    | .ok none => .ok (none, some h, s)
    | .ok (some pStmt) =>
      let h1 := h.setMysqlPS pStmt
      let s1 := s.record (DriverCall.bindParameters pStmt h1.params)
      match d.bindParameters s.driverCalls pStmt h1.params with
      | .runtimeError e => .ok (none, some h1, s1.logError e)
      | .value _ =>
        let s2 := s1.record (DriverCall.psExecuteQuery pStmt)
        match d.psExecuteQuery s1.driverCalls pStmt with
        | .runtimeError e => .ok (none, some h1, s2.logError e)
        | .value result => .ok (result, some h1, s2)

/-- `execute( PreparedStatement* )`: a null handle and an empty slot are answered with
`false`; otherwise the native statement is attached to the handle, the parameters are bound
and the statement is executed, a runtime error being logged and answered with `nullptr`
converted to `bool`, that is `false`. -/
def execute_stmt (d : Driver) (s : DbConnection) (stmt : Option PreparedStatement) :
    Except Fault (Bool × Option PreparedStatement × DbConnection) :=
  match stmt with
  | none => .ok (false, none, s)
  | some h =>
    match s.getPreparedStatement h.getIndex with
    | .error f => .error f
    | .ok none => .ok (false, some h, s)
    | .ok (some pStmt) =>
      let h1 := h.setMysqlPS pStmt
      let s1 := s.record (DriverCall.bindParameters pStmt h1.params)
      match d.bindParameters s.driverCalls pStmt h1.params with
      | .runtimeError e => .ok (false, some h1, s1.logError e)
      | .value _ =>
        let s2 := s1.record (DriverCall.psExecute pStmt)
        match d.psExecute s1.driverCalls pStmt with
        | .runtimeError e => .ok (false, some h1, s2.logError e)
        | .value result => .ok (result, some h1, s2)

/-- Modelled from the spec: the typedef `PreparedStatementMap` is in `DbConnection.h`, a
header that is not among the sources; the registry is a map keyed by statement id with one
entry per id.  This is its `find`. -/
def registryFind (m : List (Nat × (String × ConnectionFlags))) (index : Nat) :
    Option (String × ConnectionFlags) :=
  List.lookup index m

/-- Modelled from the spec: `PreparedStatementMap::insert` for the map of `DbConnection.h`,
a header that is not among the sources: as for every unique-key standard map, the entry is
added when the key is absent and the map is left as it is when the key is present (no
standard associative container replaces an existing entry on `insert`). -/
def registryInsert (m : List (Nat × (String × ConnectionFlags))) (index : Nat)
    (v : String × ConnectionFlags) : List (Nat × (String × ConnectionFlags)) :=
  match registryFind m index with
  | some _ => m
  | none => m ++ [(index, v)]

/-- The assignment to `m_stmts[index]` (both `reset()` and `operator=`). -/
def setSlot (s : DbConnection) (index : Nat) (p : Option MysqlPreparedStatement) :
    Except Fault DbConnection :=
  if index < s.m_stmts.length then .ok { s with m_stmts := s.m_stmts.set index p }
  else .error Fault.outOfRange

/-- `prepareStatement( index, sql, flags )`: insert into the registry; when the flags do
not intersect the connection's flags reset the slot and return; otherwise ask the connector
to compile, on a runtime error log it and set `m_prepareError`, and store the resulting
pointer (null after an error) in the slot. -/
def prepareStatement (d : Driver) (s : DbConnection) (index : Nat) (sql : String)
    (flags : ConnectionFlags) : Except Fault DbConnection :=
  let s1 := { s with m_queries := registryInsert s.m_queries index (sql, flags) }
  if s1.m_connectionFlags &&& flags = 0 then
    s1.setSlot index none
  else
    match s1.m_pConnection with
    | none => .error Fault.nullSession
    | some c =>
      let s2 := s1.record (DriverCall.prepareStatement c sql)
      match d.prepareStatement s1.driverCalls c sql with
      | .value pStmt => s2.setSlot index (some pStmt)
      | .runtimeError e => { s2.logError e with m_prepareError := true }.setSlot index none

/-- Modelled from the spec: the hook `doPrepareStatements` is defined by the concrete
connection classes, which are not among the sources; it performs a list of
`prepareStatement` calls, in order. -/
def doPrepareStatements (d : Driver) (s : DbConnection) :
    List Registration → Except Fault DbConnection
  | [] => .ok s
  | r :: rest =>
    match s.prepareStatement d r.index r.sql r.flags with
    | .error f => .error f
    | .ok s1 => doPrepareStatements d s1 rest

/-- `prepareStatements()`: run the hook, then return `!m_prepareError`. -/
def prepareStatements (d : Driver) (s : DbConnection) (hook : List Registration) :
    Except Fault (Bool × DbConnection) :=
  match s.doPrepareStatements d hook with
  | .error f => .error f
  | .ok s1 => .ok (!s1.m_prepareError, s1)

end DbConnection

/-! ## Sequences of operations -/

/-- One call on a connection. -/
inductive Op where
  | dbOpen
  | close
  | getLastError
  | ping
  | lockIfReady
  | unlock
  | beginTransaction
  | rollbackTransaction
  | commitTransaction
  | execute_sql (sql : String)
  | query_sql (sql : String)
  | query_stmt (stmt : Option PreparedStatement)
  | execute_stmt (stmt : Option PreparedStatement)
  | prepareStatement (index : Nat) (sql : String) (flags : ConnectionFlags)
  | prepareStatements (hook : List Registration)
  deriving DecidableEq, Repr

/-- The connection after one call, the returned value dropped. -/
def step (d : Driver) (s : DbConnection) : Op → Except Fault DbConnection
  | .dbOpen => .ok (s.dbOpen d).2
  | .close => .ok s.close
  | .getLastError => (s.getLastError d).map Prod.snd
  | .ping => s.ping d
  | .lockIfReady => .ok s.lockIfReady.2
  | .unlock => s.unlock
  | .beginTransaction => s.beginTransaction d
  | .rollbackTransaction => s.rollbackTransaction d
  | .commitTransaction => s.commitTransaction d
  | .execute_sql sql => (s.execute_sql d sql).map Prod.snd
  | .query_sql sql => (s.query_sql d sql).map Prod.snd
  | .query_stmt h => (s.query_stmt d h).map (fun r => r.2.2)
  | .execute_stmt h => (s.execute_stmt d h).map (fun r => r.2.2)
  | .prepareStatement index sql flags => s.prepareStatement d index sql flags
  | .prepareStatements hook => (s.prepareStatements d hook).map Prod.snd

/-- The connection after a sequence of calls; the first fault ends the run. -/
def run (d : Driver) (s : DbConnection) : List Op → Except Fault DbConnection
  | [] => .ok s
  | op :: rest =>
    match step d s op with
    | .error f => .error f
    | .ok s1 => run d s1 rest

/-- `lockIfReady()` called `n` times in a row, with the list of returned values. -/
def lockIfReadyN (s : DbConnection) : Nat → List Bool × DbConnection
  | 0 => ([], s)
  | n + 1 =>
    let r := s.lockIfReady
    let rest := lockIfReadyN r.2 n
    (r.1 :: rest.1, rest.2)

/-- `~DbConnection()`: the destructor calls `close()`. -/
def DbConnection.destroy (s : DbConnection) : DbConnection := s.close

/-- Modelled from the spec: the statement cache has one slot per statement id; the concrete
connection classes, which are not among the sources, size `m_stmts` before they register
their statements.  New slots are null, slots beyond `n` are dropped. -/
def DbConnection.resizeStmts (s : DbConnection) (n : Nat) : DbConnection :=
  { s with m_stmts := s.m_stmts.take n ++ List.replicate (n - s.m_stmts.length) none }

/-! ## Concrete connectors and connections used at the evaluation points -/

/-- A connector that accepts every connection and schema, numbers the objects it creates by
the length of its call history, and raises a runtime error for the statement text `"BAD"` and
for a handle with more than one parameter. -/
def demoDriver : Driver where
  connect := fun hist _ _ _ _ _ => .value (hist.length + 1)
  setSchema := fun _ _ _ => .value ()
  getErrorNo := fun _ _ => .value 0
  ping := fun _ _ => .value ()
  beginTransaction := fun _ _ => .value ()
  rollbackTransaction := fun _ _ => .value ()
  commitTransaction := fun _ _ => .value ()
  createStatement := fun hist _ => .value hist.length
  execute := fun _ _ sql => if sql = "BAD" then .runtimeError "syntax error" else .value true
  executeQuery := fun hist _ sql =>
    if sql = "BAD" then .runtimeError "syntax error" else .value (some hist.length)
  prepareStatement := fun hist _ sql =>
    if sql = "BAD" then .runtimeError "syntax error" else .value (100 + hist.length)
  bindParameters := fun _ _ params =>
    if 1 < params.length then .runtimeError "parameter count" else .value ()
  psExecute := fun _ _ => .value true
  psExecuteQuery := fun _ ps => .value (some ps)

/-- A connector like `demoDriver` whose `setSchema` raises a runtime error. -/
def noSchemaDriver : Driver :=
  { demoDriver with setSchema := fun _ _ _ => .runtimeError "Unknown database" }

/-- Connection parameters of the evaluation points. -/
def demoInfo : ConnectionInfo :=
  { user := "root", password := "pw", database := "sapphire", host := "localhost", port := 3306 }

/-- A synchronous connection, opened on `demoDriver`, with a cache of four slots. -/
def demoSync : DbConnection :=
  ((DbConnection.mkSync demoInfo).dbOpen demoDriver).2.resizeStmts 4

/-- An asynchronous connection on queue `0`, opened on `demoDriver`, with a cache of four
slots. -/
def demoAsync : DbConnection :=
  ((DbConnection.mkAsync (some 0) demoInfo).dbOpen demoDriver).2.resizeStmts 4

/-- Every member of the connection object is the same in `s` and `s'`; only the two
instrumentation lists may differ. -/
def membersUnchanged (s s' : DbConnection) : Prop :=
  { s' with driverCalls := s.driverCalls, logged := s.logged } = s

instance (s s' : DbConnection) : Decidable (membersUnchanged s s') := by
  unfold membersUnchanged
  infer_instance

/-- `demoSync` after `prepareStatement(2, "SELECT 1", CONNECTION_SYNCH)`: slot 2 holds a
compiled statement. -/
def demoSyncPrepared : DbConnection :=
  match demoSync.prepareStatement demoDriver 2 "SELECT 1" CONNECTION_SYNCH with
  | .ok s => s
  | .error _ => demoSync

/-- A sequence of calls on `demoSync`: a registration whose compile fails, a lease, an ad hoc
statement, and the release of the lease. -/
def demoOps : List Op :=
  [Op.prepareStatement 0 "BAD" CONNECTION_SYNCH, Op.lockIfReady, Op.execute_sql "SELECT 1",
    Op.unlock]

/-- `demoSync` after `demoOps`. -/
def demoAfterOps : DbConnection :=
  match run demoDriver demoSync demoOps with
  | .ok s => s
  | .error _ => demoSync

/-- A bulk hook of two registrations, one for each mode. -/
def demoHook : List Registration :=
  [{ index := 1, sql := "SELECT 1", flags := CONNECTION_SYNCH },
    { index := 2, sql := "SELECT 2", flags := CONNECTION_ASYNC }]

/-! ## Failed compiles, stated on the sequence of calls -/

/-- A registration made on connection `s` is a failed compile: its flags intersect the
connection's flags and the connector, asked to compile its text on the bound session,
raises. -/
def compileFails (d : Driver) (s : DbConnection) (r : Registration) : Bool :=
  (s.m_connectionFlags &&& r.flags != 0) &&
    match s.m_pConnection with
    | none => false
    | some c =>
      match d.prepareStatement s.driverCalls c r.sql with
      | .runtimeError _ => true
      | .value _ => false

/-- Some registration of the hook, run from `s`, is a failed compile. -/
def hookCompileFailed (d : Driver) (s : DbConnection) : List Registration → Bool
  | [] => false
  | r :: rest =>
    compileFails d s r ||
      match s.prepareStatement d r.index r.sql r.flags with
      | .ok s1 => hookCompileFailed d s1 rest
      | .error _ => false

/-- The call `op`, made on `s`, contains a failed compile. -/
def opCompileFailed (d : Driver) (s : DbConnection) : Op → Bool
  | .prepareStatement index sql flags =>
    compileFails d s { index := index, sql := sql, flags := flags }
  | .prepareStatements hook => hookCompileFailed d s hook
  | _ => false

/-- Some `prepareStatement` call of the sequence, run from `s`, is a failed compile. -/
def compileFailed (d : Driver) (s : DbConnection) : List Op → Bool
  | [] => false
  | op :: rest =>
    opCompileFailed d s op ||
      match step d s op with
      | .ok s1 => compileFailed d s1 rest
      | .error _ => false

/-! ## Basic facts -/

theorem setSlot_eq_ok (s s' : DbConnection) (index : Nat) (p : Option MysqlPreparedStatement)
    (h : s.setSlot index p = .ok s') :
    index < s.m_stmts.length ∧ s' = { s with m_stmts := s.m_stmts.set index p } := by
  unfold DbConnection.setSlot at h
  split at h
  · rename_i hb
    exact ⟨hb, by cases h; rfl⟩
  · cases h

theorem prepareStatement_mismatch (d : Driver) (s : DbConnection) (index : Nat) (sql : String)
    (flags : ConnectionFlags) (hb : index < s.m_stmts.length)
    (hm : s.m_connectionFlags &&& flags = 0) :
    s.prepareStatement d index sql flags =
      .ok { s with m_queries := DbConnection.registryInsert s.m_queries index (sql, flags)
                   m_stmts := s.m_stmts.set index none } := by
  simp [DbConnection.prepareStatement, hm, DbConnection.setSlot, hb]

theorem membersUnchanged_grow (s : DbConnection) (calls : List DriverCall)
    (logs : List String) :
    membersUnchanged s { s with driverCalls := calls, logged := logs } := by
  cases s
  rfl

theorem count_true_replicate_false (n : Nat) : (List.replicate n false).count true = 0 := by
  induction n with
  | zero => rfl
  | succ k ih => simp [List.replicate_succ, ih]

theorem lockIfReadyN_held (n : Nat) (s : DbConnection) (h : s.m_mutex = true) :
    lockIfReadyN s n = (List.replicate n false, s) := by
  induction n with
  | zero => rfl
  | succ k ih => simp [lockIfReadyN, DbConnection.lockIfReady, h, ih, List.replicate_succ]

theorem lookup_append_fresh (m : List (Nat × (String × ConnectionFlags))) (index : Nat)
    (v : String × ConnectionFlags) (h : List.lookup index m = none) :
    List.lookup index (m ++ [(index, v)]) = some v := by
  induction m with
  | nil => simp [List.lookup]
  | cons e rest ih =>
    obtain ⟨k, w⟩ := e
    by_cases hk : index = k
    · subst hk
      simp [List.lookup] at h
    · have hne : (index == k) = false := by simpa using hk
      simp only [List.cons_append, List.lookup, hne] at h ⊢
      exact ih h

theorem registryFind_insert_fresh (m : List (Nat × (String × ConnectionFlags))) (index : Nat)
    (v : String × ConnectionFlags) (h : DbConnection.registryFind m index = none) :
    DbConnection.registryFind (DbConnection.registryInsert m index v) index = some v := by
  unfold DbConnection.registryInsert
  rw [h]
  exact lookup_append_fresh m index v h

theorem registryFind_insert_present (m : List (Nat × (String × ConnectionFlags))) (index : Nat)
    (v e : String × ConnectionFlags) (h : DbConnection.registryFind m index = some e) :
    DbConnection.registryFind (DbConnection.registryInsert m index v) index = some e := by
  unfold DbConnection.registryInsert
  rw [h]
  exact h

theorem prepareStatement_m_queries (d : Driver) (s s' : DbConnection) (index : Nat)
    (sql : String) (flags : ConnectionFlags)
    (h : s.prepareStatement d index sql flags = .ok s') :
    s'.m_queries = DbConnection.registryInsert s.m_queries index (sql, flags) := by
  unfold DbConnection.prepareStatement at h
  simp only at h
  split at h
  · obtain ⟨_, rfl⟩ := setSlot_eq_ok _ _ _ _ h
    rfl
  · split at h
    · cases h
    · split at h
      · obtain ⟨_, rfl⟩ := setSlot_eq_ok _ _ _ _ h
        rfl
      · obtain ⟨_, rfl⟩ := setSlot_eq_ok _ _ _ _ h
        rfl

theorem prepareStatement_total (d : Driver) (s : DbConnection) (index : Nat) (sql : String)
    (flags : ConnectionFlags) (hb : index < s.m_stmts.length)
    (hc : s.m_connectionFlags &&& flags = 0 ∨ s.m_pConnection ≠ none) :
    ∃ s', s.prepareStatement d index sql flags = .ok s' := by
  by_cases hm : s.m_connectionFlags &&& flags = 0
  · exact ⟨_, prepareStatement_mismatch d s index sql flags hb hm⟩
  · cases hs : s.m_pConnection with
    | none => simp [hm, hs] at hc
    | some c =>
      cases hd : d.prepareStatement s.driverCalls c sql <;>
        simp [DbConnection.prepareStatement, hm, hs, hd, DbConnection.setSlot,
          DbConnection.record, DbConnection.logError, hb]

/-- The return code of `open()` is `0` exactly when the connector's `connect` and then its
`setSchema` both return, and it is `0` or `1`. -/
theorem dbOpen_zero_iff (d : Driver) (s : DbConnection) :
    ((s.dbOpen d).1 = 0 ↔
      ∃ c, d.connect s.driverCalls s.m_connectionInfo.host s.m_connectionInfo.user
          s.m_connectionInfo.password DbConnection.openOptions s.m_connectionInfo.port =
            .value c ∧
        d.setSchema (s.driverCalls ++ [DriverCall.connect s.m_connectionInfo.host
          s.m_connectionInfo.user s.m_connectionInfo.password DbConnection.openOptions
          s.m_connectionInfo.port]) c s.m_connectionInfo.database = .value ()) ∧
    ((s.dbOpen d).1 = 0 ∨ (s.dbOpen d).1 = 1) := by
  cases hc : d.connect s.driverCalls s.m_connectionInfo.host s.m_connectionInfo.user
      s.m_connectionInfo.password DbConnection.openOptions s.m_connectionInfo.port with
  | runtimeError e => simp [DbConnection.dbOpen, hc]
  | value c =>
    cases hs : d.setSchema (s.driverCalls ++ [DriverCall.connect s.m_connectionInfo.host
          s.m_connectionInfo.user s.m_connectionInfo.password DbConnection.openOptions
          s.m_connectionInfo.port]) c s.m_connectionInfo.database <;>
      simp [DbConnection.dbOpen, DbConnection.record, hc, hs]

/-- When the connector's `connect` raises, `open()` returns `1` and binds no session. -/
theorem dbOpen_connect_failure (d : Driver) (s : DbConnection) (e : String)
    (h : d.connect s.driverCalls s.m_connectionInfo.host s.m_connectionInfo.user
          s.m_connectionInfo.password DbConnection.openOptions s.m_connectionInfo.port =
            .runtimeError e) :
    (s.dbOpen d).1 = 1 ∧ (s.dbOpen d).2.m_pConnection = s.m_pConnection := by
  simp [DbConnection.dbOpen, h, DbConnection.record, DbConnection.logError]

theorem except_map_eq_ok {ε α β : Type} (x : Except ε α) (f : α → β) (b : β)
    (h : x.map f = .ok b) : ∃ a, x = .ok a ∧ f a = b := by
  cases x with
  | error e => cases h
  | ok a => exact ⟨a, rfl, by cases h; rfl⟩

/-- What `prepareStatement` leaves alone, what it does to `m_prepareError`, and how many
connector calls it makes. -/
theorem prepareStatement_frame (d : Driver) (s s' : DbConnection) (index : Nat) (sql : String)
    (flags : ConnectionFlags) (h : s.prepareStatement d index sql flags = .ok s') :
    s'.m_pConnection = s.m_pConnection ∧ s'.m_connectionFlags = s.m_connectionFlags ∧
      s'.m_stmts.length = s.m_stmts.length ∧
      s'.driverCalls.length =
        s.driverCalls.length + (if s.m_connectionFlags &&& flags = 0 then 0 else 1) ∧
      s'.m_prepareError = (s.m_prepareError ||
        compileFails d s { index := index, sql := sql, flags := flags }) := by
  by_cases hm : s.m_connectionFlags &&& flags = 0
  · simp only [DbConnection.prepareStatement, hm, if_true] at h
    obtain ⟨_, rfl⟩ := setSlot_eq_ok _ _ _ _ h
    simp [compileFails, hm]
  · cases hc : s.m_pConnection with
    | none => simp [DbConnection.prepareStatement, hm, hc] at h
    | some c =>
      cases hd : d.prepareStatement s.driverCalls c sql with
      | value p =>
        simp only [DbConnection.prepareStatement, hm, hc, hd, if_false] at h
        obtain ⟨_, rfl⟩ := setSlot_eq_ok _ _ _ _ h
        simp [compileFails, hm, hc, hd, DbConnection.record]
      | runtimeError e =>
        simp only [DbConnection.prepareStatement, hm, hc, hd, if_false] at h
        obtain ⟨_, rfl⟩ := setSlot_eq_ok _ _ _ _ h
        simp [compileFails, hm, hc, hd, DbConnection.record, DbConnection.logError]

theorem doPrepareStatements_m_prepareError (d : Driver) (hook : List Registration) :
    ∀ s s' : DbConnection, s.doPrepareStatements d hook = .ok s' →
      s'.m_prepareError = (s.m_prepareError || hookCompileFailed d s hook) := by
  induction hook with
  | nil =>
    intro s s' h
    cases h
    simp [hookCompileFailed]
  | cons r rest ih =>
    intro s s' h
    unfold DbConnection.doPrepareStatements at h
    cases h1 : s.prepareStatement d r.index r.sql r.flags with
    | error f => simp [h1] at h
    | ok s1 =>
      simp only [h1] at h
      rw [ih s1 s' h, (prepareStatement_frame d s s1 _ _ _ h1).2.2.2.2]
      simp [hookCompileFailed, h1, Bool.or_assoc]

theorem step_m_prepareError (d : Driver) (s s' : DbConnection) (op : Op)
    (h : step d s op = .ok s') :
    s'.m_prepareError = (s.m_prepareError || opCompileFailed d s op) := by
  cases op with
  | dbOpen =>
    simp only [step, Except.ok.injEq] at h
    subst h
    simp only [opCompileFailed, Bool.or_false]
    unfold DbConnection.dbOpen
    simp only []
    split
    · rfl
    · split <;> rfl
  | close =>
    simp only [step, Except.ok.injEq] at h
    subst h
    simp only [opCompileFailed, Bool.or_false]
    unfold DbConnection.close
    simp only []
    split <;> rfl
  | getLastError =>
    obtain ⟨a, ha, rfl⟩ := except_map_eq_ok _ _ _ h
    simp only [opCompileFailed, Bool.or_false]
    unfold DbConnection.getLastError at ha
    try dsimp only at ha
    (repeat' (split at ha)) <;> first | (cases ha; rfl) | cases ha
  | ping =>
    simp only [step] at h
    simp only [opCompileFailed, Bool.or_false]
    unfold DbConnection.ping at h
    (repeat' (split at h)) <;> first | (cases h; rfl) | cases h
  | lockIfReady =>
    simp only [step, Except.ok.injEq] at h
    subst h
    simp only [opCompileFailed, Bool.or_false]
    unfold DbConnection.lockIfReady
    split <;> rfl
  | unlock =>
    simp only [step] at h
    simp only [opCompileFailed, Bool.or_false]
    unfold DbConnection.unlock at h
    (repeat' (split at h)) <;> first | (cases h; rfl) | cases h
  | beginTransaction =>
    simp only [step] at h
    simp only [opCompileFailed, Bool.or_false]
    unfold DbConnection.beginTransaction at h
    (repeat' (split at h)) <;> first | (cases h; rfl) | cases h
  | rollbackTransaction =>
    simp only [step] at h
    simp only [opCompileFailed, Bool.or_false]
    unfold DbConnection.rollbackTransaction at h
    (repeat' (split at h)) <;> first | (cases h; rfl) | cases h
  | commitTransaction =>
    simp only [step] at h
    simp only [opCompileFailed, Bool.or_false]
    unfold DbConnection.commitTransaction at h
    (repeat' (split at h)) <;> first | (cases h; rfl) | cases h
  | execute_sql sql =>
    obtain ⟨a, ha, rfl⟩ := except_map_eq_ok _ _ _ h
    simp only [opCompileFailed, Bool.or_false]
    unfold DbConnection.execute_sql at ha
    try dsimp only at ha
    (repeat' (split at ha)) <;> first | (cases ha; rfl) | cases ha
  | query_sql sql =>
    obtain ⟨a, ha, rfl⟩ := except_map_eq_ok _ _ _ h
    simp only [opCompileFailed, Bool.or_false]
    unfold DbConnection.query_sql at ha
    try dsimp only at ha
    (repeat' (split at ha)) <;> first | (cases ha; rfl) | cases ha
  | query_stmt stmt =>
    obtain ⟨a, ha, rfl⟩ := except_map_eq_ok _ _ _ h
    simp only [opCompileFailed, Bool.or_false]
    unfold DbConnection.query_stmt at ha
    try dsimp only at ha
    (repeat' (split at ha)) <;> first | (cases ha; rfl) | cases ha
  | execute_stmt stmt =>
    obtain ⟨a, ha, rfl⟩ := except_map_eq_ok _ _ _ h
    simp only [opCompileFailed, Bool.or_false]
    unfold DbConnection.execute_stmt at ha
    try dsimp only at ha
    (repeat' (split at ha)) <;> first | (cases ha; rfl) | cases ha
  | prepareStatement index sql flags =>
    simp only [step] at h
    exact (prepareStatement_frame d s s' index sql flags h).2.2.2.2
  | prepareStatements hook =>
    obtain ⟨a, ha, rfl⟩ := except_map_eq_ok _ _ _ h
    simp only [opCompileFailed]
    unfold DbConnection.prepareStatements at ha
    cases h1 : s.doPrepareStatements d hook with
    | error f => simp [h1] at ha
    | ok s1 =>
      simp only [h1, Except.ok.injEq] at ha
      subst ha
      exact doPrepareStatements_m_prepareError d hook s s1 h1

theorem run_m_prepareError (d : Driver) (ops : List Op) :
    ∀ s s' : DbConnection, run d s ops = .ok s' →
      s'.m_prepareError = (s.m_prepareError || compileFailed d s ops) := by
  induction ops with
  | nil =>
    intro s s' h
    cases h
    simp [compileFailed]
  | cons op rest ih =>
    intro s s' h
    unfold run at h
    cases h1 : step d s op with
    | error f => simp [h1] at h
    | ok s1 =>
      simp only [h1] at h
      rw [ih s1 s' h, step_m_prepareError d s s1 op h1]
      simp [compileFailed, h1, Bool.or_assoc]

theorem compileFailed_append (d : Driver) (ops ops' : List Op) :
    ∀ s s1 : DbConnection, run d s ops = .ok s1 →
      compileFailed d s (ops ++ ops') = (compileFailed d s ops || compileFailed d s1 ops') := by
  induction ops with
  | nil =>
    intro s s1 h
    cases h
    simp [compileFailed]
  | cons op rest ih =>
    intro s s1 h
    unfold run at h
    cases h1 : step d s op with
    | error f => simp [h1] at h
    | ok s2 =>
      simp only [h1] at h
      rw [List.cons_append]
      simp only [compileFailed, h1]
      rw [ih s2 s1 h, Bool.or_assoc]

/-- The hook returns whenever a session is bound and every id is inside the cache,
whatever the connector answers; every registration whose flags intersect reaches the
connector. -/
theorem doPrepareStatements_total (d : Driver) (hook : List Registration) :
    ∀ s : DbConnection, s.m_pConnection ≠ none →
      (∀ r ∈ hook, r.index < s.m_stmts.length) →
      ∃ s', s.doPrepareStatements d hook = .ok s' ∧ s'.m_pConnection = s.m_pConnection ∧
        s'.m_connectionFlags = s.m_connectionFlags ∧
        s'.m_stmts.length = s.m_stmts.length ∧
        s'.driverCalls.length = s.driverCalls.length +
          (hook.filter (fun r => s.m_connectionFlags &&& r.flags != 0)).length := by
  induction hook with
  | nil =>
    intro s _ _
    exact ⟨s, rfl, rfl, rfl, rfl, by simp⟩
  | cons r rest ih =>
    intro s hc hb
    obtain ⟨s1, h1⟩ := prepareStatement_total d s r.index r.sql r.flags
      (hb r (List.mem_cons_self _ _)) (Or.inr hc)
    obtain ⟨e1, e2, e3, e4, _⟩ := prepareStatement_frame d s s1 _ _ _ h1
    obtain ⟨s', h2, f1, f2, f3, f4⟩ := ih s1 (by rw [e1]; exact hc)
      (fun r' hr' => by rw [e3]; exact hb r' (List.mem_cons_of_mem _ hr'))
    refine ⟨s', ?_, by rw [f1, e1], by rw [f2, e2], by rw [f3, e3], ?_⟩
    · simp only [DbConnection.doPrepareStatements, h1]
      exact h2
    · rw [f4, e4, e2, List.filter_cons]
      by_cases hm : s.m_connectionFlags &&& r.flags = 0
      · simp [hm]
      · simp [hm]
        omega

theorem compileFailed_singleton (d : Driver) (s : DbConnection) (op : Op) :
    compileFailed d s [op] = opCompileFailed d s op := by
  unfold compileFailed
  cases step d s op <;> simp [compileFailed]

/-! ## Claims -/

/-- C4: `close()` is idempotent.  For every connection state, after `close()` there is no
worker, no cached statement and no native session; a second `close()` (explicit or from the
destructor) returns the same state, so it makes no connector call, and `close()` is a total
function, so it cannot fault. -/
theorem close_idempotent (s : DbConnection) :
    s.close.m_worker = none ∧ s.close.m_stmts = [] ∧ s.close.m_pConnection = none ∧
      s.close.close = s.close ∧ s.close.destroy = s.close ∧
      s.close.close.driverCalls = s.close.driverCalls := by
  cases hc : s.m_pConnection <;>
    simp [DbConnection.close, DbConnection.record, DbConnection.destroy, hc]

/-- C9: leasing is mutually exclusive.  `lockIfReady()` returns `true` exactly when the lock
is free, leaves the lock held in both cases and changes nothing else; of `n ≥ 1` calls in a
row on a free connection exactly one returns `true`, on a held connection none does;
`unlock()` on a held connection frees the lock and changes nothing else, and of `n ≥ 1`
calls after it exactly one returns `true`. -/
theorem lockIfReady_mutually_exclusive (s : DbConnection) (n : Nat) (hn : 1 ≤ n) :
    (s.lockIfReady.1 = true ↔ s.m_mutex = false) ∧
      s.lockIfReady.2 = { s with m_mutex := true } ∧
      (s.m_mutex = false →
        (lockIfReadyN s n).1.count true = 1 ∧ (lockIfReadyN s n).2 = { s with m_mutex := true }) ∧
      (s.m_mutex = true →
        (lockIfReadyN s n).1.count true = 0 ∧ (lockIfReadyN s n).2 = s ∧
        s.unlock = .ok { s with m_mutex := false } ∧
        (lockIfReadyN { s with m_mutex := false } n).1.count true = 1) := by
  obtain ⟨k, rfl⟩ : ∃ k, n = k + 1 := ⟨n - 1, by omega⟩
  have free : ∀ t : DbConnection, t.m_mutex = false →
      (lockIfReadyN t (k + 1)).1.count true = 1 ∧
        (lockIfReadyN t (k + 1)).2 = { t with m_mutex := true } := by
    intro t ht
    have hh : ({ t with m_mutex := true } : DbConnection).m_mutex = true := rfl
    simp [lockIfReadyN, DbConnection.lockIfReady, ht, lockIfReadyN_held k _ hh,
      count_true_replicate_false]
  refine ⟨?_, ?_, free s, ?_⟩
  · cases hm : s.m_mutex <;> simp [DbConnection.lockIfReady, hm]
  · cases hm : s.m_mutex
    · simp [DbConnection.lockIfReady, hm]
    · cases s
      simp_all [DbConnection.lockIfReady]
  · intro hm
    refine ⟨?_, ?_, ?_, (free _ rfl).1⟩
    · rw [lockIfReadyN_held _ s hm]
      exact count_true_replicate_false _
    · rw [lockIfReadyN_held _ s hm]
    · simp [DbConnection.unlock, hm]

/-- C1: for an in-bounds slot, `prepareStatement(index, sql, flags)` leaves a compiled
statement in the slot exactly when the flags intersect the connection's flags and the
connector's `prepareStatement(sql)` returned one.  When the flags do not intersect, the call
returns with the slot empty and without any connector call, whatever the slot held; when
they intersect and a session is bound, the call returns after exactly one connector call
and the slot holds `p` exactly when the connector returned `p`. -/
theorem prepareStatement_materializes_iff (d : Driver) (s : DbConnection) (index : Nat)
    (sql : String) (flags : ConnectionFlags) (hb : index < s.m_stmts.length) :
    (s.m_connectionFlags &&& flags = 0 →
      ∃ s', s.prepareStatement d index sql flags = .ok s' ∧ s'.m_stmts[index]? = some none ∧
        s'.driverCalls = s.driverCalls) ∧
    (s.m_connectionFlags &&& flags ≠ 0 → ∀ c, s.m_pConnection = some c →
      ∃ s', s.prepareStatement d index sql flags = .ok s' ∧
        s'.driverCalls = s.driverCalls ++ [DriverCall.prepareStatement c sql] ∧
        ∀ p, s'.m_stmts[index]? = some (some p) ↔
          d.prepareStatement s.driverCalls c sql = .value p) ∧
    (∀ s', s.prepareStatement d index sql flags = .ok s' →
      ((∃ p, s'.m_stmts[index]? = some (some p)) ↔
        (s.m_connectionFlags &&& flags ≠ 0 ∧
          ∃ c p, s.m_pConnection = some c ∧
            d.prepareStatement s.driverCalls c sql = .value p))) := by
  by_cases hm : s.m_connectionFlags &&& flags = 0
  · refine ⟨fun _ => ?_, fun h => absurd hm h, ?_⟩
    · exact ⟨_, prepareStatement_mismatch d s index sql flags hb hm, by simp [hb], rfl⟩
    · intro s' hs
      rw [prepareStatement_mismatch d s index sql flags hb hm] at hs
      cases hs
      simp [hb, hm]
  · cases hc : s.m_pConnection with
    | none => simp [DbConnection.prepareStatement, hm, hc]
    | some c =>
      cases hd : d.prepareStatement s.driverCalls c sql <;>
        simp [DbConnection.prepareStatement, hm, hc, hd, DbConnection.setSlot,
          DbConnection.record, DbConnection.logError, hb]

/-- Witness of C1 on the opened synchronous connection `demoSync`, slot 2. -/
theorem prepareStatement_materializes_iff_witness :
    (2 < demoSync.m_stmts.length) ∧
    (∀ s', demoSync.prepareStatement demoDriver 2 "SELECT 1" CONNECTION_SYNCH = .ok s' →
      ((∃ p, s'.m_stmts[2]? = some (some p)) ↔
        (demoSync.m_connectionFlags &&& CONNECTION_SYNCH ≠ 0 ∧
          ∃ c p, demoSync.m_pConnection = some c ∧
            demoDriver.prepareStatement demoSync.driverCalls c "SELECT 1" = .value p))) :=
  ⟨by decide,
    (prepareStatement_materializes_iff demoDriver demoSync 2 "SELECT 1" CONNECTION_SYNCH
      (by decide)).2.2⟩

/-- C2: on a connection whose flags do not intersect the statement's flags (a Sync
connection and an Async statement in particular), `prepareStatement` on an in-bounds id
leaves the slot empty without a connector call, and `query` and `execute` on a handle with
that id then return `nullptr` and `false`, leaving handle and connection (its connector
call list included) as they were: no fault, no connector call. -/
theorem mismatched_statement_sentinel (d : Driver) (s : DbConnection) (index : Nat)
    (sql : String) (flags : ConnectionFlags) (h : PreparedStatement)
    (hb : index < s.m_stmts.length) (hm : s.m_connectionFlags &&& flags = 0)
    (hi : h.getIndex = index) :
    ∃ s', s.prepareStatement d index sql flags = .ok s' ∧
      s'.m_stmts[index]? = some none ∧ s'.driverCalls = s.driverCalls ∧
      s'.query_stmt d (some h) = .ok (none, some h, s') ∧
      s'.execute_stmt d (some h) = .ok (false, some h, s') := by
  refine ⟨_, prepareStatement_mismatch d s index sql flags hb hm, ?_, ?_, ?_, ?_⟩
  · simp [hb]
  · rfl
  · simp [DbConnection.query_stmt, DbConnection.getPreparedStatement, hi, hb]
  · simp [DbConnection.execute_stmt, DbConnection.getPreparedStatement, hi, hb]

/-- Witness of C2: an Async statement registered under id 1 on the Sync connection
`demoSync`. -/
theorem mismatched_statement_sentinel_witness :
    ∃ s', demoSync.prepareStatement demoDriver 1 "SELECT 1" CONNECTION_ASYNC = .ok s' ∧
      s'.m_stmts[1]? = some none ∧ s'.driverCalls = demoSync.driverCalls ∧
      s'.query_stmt demoDriver (some { m_index := 1, params := [], m_stmt := none }) =
        .ok (none, some { m_index := 1, params := [], m_stmt := none }, s') ∧
      s'.execute_stmt demoDriver (some { m_index := 1, params := [], m_stmt := none }) =
        .ok (false, some { m_index := 1, params := [], m_stmt := none }, s') :=
  mismatched_statement_sentinel demoDriver demoSync 1 "SELECT 1" CONNECTION_ASYNC
    { m_index := 1, params := [], m_stmt := none } (by decide) (by decide) rfl

/-- C3, the claim fails: on `demoSync`, after an Async statement is registered under id 1
(mode mismatch), `execute` and `query` on that id return `false` and `nullptr` instead of
failing fast; so do they on id 3, which is inside the cache and was never registered, and
on id 2 after a compile failure. -/
theorem empty_slot_is_not_fatal :
    ((demoSync.prepareStatement demoDriver 1 "SELECT 1" CONNECTION_ASYNC).bind
        (fun s => s.execute_stmt demoDriver
          (some { m_index := 1, params := [], m_stmt := none }))).map Prod.fst = .ok false ∧
    ((demoSync.prepareStatement demoDriver 1 "SELECT 1" CONNECTION_ASYNC).bind
        (fun s => s.query_stmt demoDriver
          (some { m_index := 1, params := [], m_stmt := none }))).map Prod.fst = .ok none ∧
    ((demoSync.prepareStatement demoDriver 2 "BAD" CONNECTION_SYNCH).bind
        (fun s => s.execute_stmt demoDriver
          (some { m_index := 2, params := [], m_stmt := none }))).map Prod.fst = .ok false ∧
    (demoSync.execute_stmt demoDriver
        (some { m_index := 3, params := [], m_stmt := none })).map Prod.fst = .ok false := by
  decide

/-- C3, amended: `execute` and `query` on a handle fail fast, on the bounds assertion,
exactly when the handle's id is not below the size of the statement cache; on an id inside
the cache whose slot is empty they return `false` and `nullptr` and leave handle and
connection untouched. -/
theorem stmt_handle_contract (d : Driver) (s : DbConnection) (h : PreparedStatement) :
    (s.execute_stmt d (some h) = .error Fault.assertion ↔ s.m_stmts.length ≤ h.getIndex) ∧
    (s.query_stmt d (some h) = .error Fault.assertion ↔ s.m_stmts.length ≤ h.getIndex) ∧
    (s.m_stmts[h.getIndex]? = some none →
      s.execute_stmt d (some h) = .ok (false, some h, s) ∧
      s.query_stmt d (some h) = .ok (none, some h, s)) := by
  have key : s.m_stmts[h.getIndex]? = none ↔ s.m_stmts.length ≤ h.getIndex :=
    List.getElem?_eq_none_iff
  refine ⟨?_, ?_, ?_⟩
  · rw [← key]
    unfold DbConnection.execute_stmt DbConnection.getPreparedStatement
    rcases hs : s.m_stmts[h.getIndex]? with _ | _ | p
    · simp [hs]
    · simp [hs]
    · simp only [hs, reduceCtorEq, iff_false]
      cases d.bindParameters s.driverCalls p (h.setMysqlPS p).params
      · simp only []
        cases d.psExecute (s.record (DriverCall.bindParameters p (h.setMysqlPS p).params)).driverCalls p <;>
          simp
      · simp
  · rw [← key]
    unfold DbConnection.query_stmt DbConnection.getPreparedStatement
    rcases hs : s.m_stmts[h.getIndex]? with _ | _ | p
    · simp [hs]
    · simp [hs]
    · simp only [hs, reduceCtorEq, iff_false]
      cases d.bindParameters s.driverCalls p (h.setMysqlPS p).params
      · simp only []
        cases d.psExecuteQuery (s.record (DriverCall.bindParameters p (h.setMysqlPS p).params)).driverCalls p <;>
          simp
      · simp
  · intro he
    simp [DbConnection.execute_stmt, DbConnection.query_stmt,
      DbConnection.getPreparedStatement, he]

/-- Witness of C3 amended: id 3 of `demoSync` is inside the cache and empty. -/
theorem stmt_handle_contract_witness :
    demoSync.m_stmts[3]? = some none ∧
      demoSync.execute_stmt demoDriver (some { m_index := 3, params := [], m_stmt := none }) =
        .ok (false, some { m_index := 3, params := [], m_stmt := none }, demoSync) ∧
      demoSync.query_stmt demoDriver (some { m_index := 3, params := [], m_stmt := none }) =
        .ok (none, some { m_index := 3, params := [], m_stmt := none }, demoSync) :=
  ⟨by decide,
    (stmt_handle_contract demoDriver demoSync
      { m_index := 3, params := [], m_stmt := none }).2.2 (by decide)⟩

/-- C5, the claim fails: `demoSync` is opened, a statement is compiled into slot 2, and
`close()` runs twice; the following `query("SELECT 1")` does not return `nullptr`, it
dereferences the null `m_pConnection`, and `query` on a handle with id 2 stops on the
bounds assertion. -/
theorem query_after_close_faults :
    ((run demoDriver demoSync
        [Op.prepareStatement 2 "SELECT 1" CONNECTION_SYNCH, Op.close, Op.close]).bind
      (fun s => s.query_sql demoDriver "SELECT 1")) = .error Fault.nullSession ∧
    ((run demoDriver demoSync
        [Op.prepareStatement 2 "SELECT 1" CONNECTION_SYNCH, Op.close, Op.close]).bind
      (fun s => s.query_stmt demoDriver (some { m_index := 2, params := [], m_stmt := none }))) =
        .error Fault.assertion := by
  decide

/-- C5, amended: after `close()` has run twice on any connection, no session is bound and
the statement cache is empty; a following `query(sql)` does not return the failure sentinel
but dereferences the null session (a fault), `query` on any non-null handle stops on the
bounds assertion, and only `query` on a null handle returns `nullptr`. -/
theorem query_after_close (d : Driver) (s : DbConnection) (sql : String)
    (h : PreparedStatement) :
    s.close.close.m_pConnection = none ∧ s.close.close.m_stmts = [] ∧
      s.close.close.query_sql d sql = .error Fault.nullSession ∧
      s.close.close.query_stmt d (some h) = .error Fault.assertion ∧
      s.close.close.query_stmt d none = .ok (none, none, s.close.close) := by
  cases hc : s.m_pConnection <;>
    simp [DbConnection.close, DbConnection.record, DbConnection.query_sql,
      DbConnection.query_stmt, DbConnection.getPreparedStatement, hc]

/-- C6, evaluation at the failing input: on a fresh synchronous connection, with a
connector whose `connect` returns session 1 and whose `setSchema` raises, `open()` returns
`1` (failure) and session 1 stays bound to the connection; both connector calls were made
and the diagnostic was logged. -/
theorem open_schema_failure_keeps_session :
    ((DbConnection.mkSync demoInfo).dbOpen noSchemaDriver).1 = 1 ∧
    ((DbConnection.mkSync demoInfo).dbOpen noSchemaDriver).2.m_pConnection = some 1 ∧
    ((DbConnection.mkSync demoInfo).dbOpen noSchemaDriver).2.driverCalls =
      [DriverCall.connect "localhost" "root" "pw" DbConnection.openOptions 3306,
        DriverCall.setSchema 1 "sapphire"] ∧
    ((DbConnection.mkSync demoInfo).dbOpen noSchemaDriver).2.logged = ["Unknown database"] := by
  decide

/-- C10, the claim fails: on `demoSync`, id 1 is registered with `"SELECT 1"` and then
with `"SELECT 2"`; the registry still maps id 1 to `"SELECT 1"`, while slot 1 holds the
statement compiled by the second call. -/
theorem registry_keeps_first_entry :
    (run demoDriver demoSync
        [Op.prepareStatement 1 "SELECT 1" CONNECTION_SYNCH,
          Op.prepareStatement 1 "SELECT 2" CONNECTION_SYNCH]).map
      (fun s => (DbConnection.registryFind s.m_queries 1, s.m_stmts[1]?, s.driverCalls.getLast?)) =
      .ok (some ("SELECT 1", CONNECTION_SYNCH), some (some 103),
        some (DriverCall.prepareStatement 1 "SELECT 2")) := by
  decide

/-- C10, amended: for an id that is not yet in the registry, after
`prepareStatement(index, sql, flags)` has returned the registry maps the id to exactly
`(sql, flags)`, whether or not the slot was materialized; and the call does return when the
id is inside the cache and either the flags do not intersect (slot left empty) or a session
is bound. -/
theorem prepareStatement_registers_fresh (d : Driver) (s : DbConnection) (index : Nat)
    (sql : String) (flags : ConnectionFlags)
    (hfresh : DbConnection.registryFind s.m_queries index = none) :
    (∀ s', s.prepareStatement d index sql flags = .ok s' →
      DbConnection.registryFind s'.m_queries index = some (sql, flags)) ∧
    (index < s.m_stmts.length → s.m_connectionFlags &&& flags = 0 →
      ∃ s', s.prepareStatement d index sql flags = .ok s' ∧ s'.m_stmts[index]? = some none ∧
        DbConnection.registryFind s'.m_queries index = some (sql, flags)) ∧
    (index < s.m_stmts.length → s.m_pConnection ≠ none →
      ∃ s', s.prepareStatement d index sql flags = .ok s' ∧
        DbConnection.registryFind s'.m_queries index = some (sql, flags)) := by
  have key : ∀ s', s.prepareStatement d index sql flags = .ok s' →
      DbConnection.registryFind s'.m_queries index = some (sql, flags) := by
    intro s' hs
    rw [prepareStatement_m_queries d s s' index sql flags hs]
    exact registryFind_insert_fresh _ _ _ hfresh
  refine ⟨key, ?_, ?_⟩
  · intro hb hm
    refine ⟨_, prepareStatement_mismatch d s index sql flags hb hm, by simp [hb], ?_⟩
    exact key _ (prepareStatement_mismatch d s index sql flags hb hm)
  · intro hb hc
    obtain ⟨s', hs⟩ := prepareStatement_total d s index sql flags hb (Or.inr hc)
    exact ⟨s', hs, key s' hs⟩

/-- Witness of C10 amended: id 1 is not registered on `demoSync`; an Async registration
leaves the slot empty and records the entry. -/
theorem prepareStatement_registers_fresh_witness :
    DbConnection.registryFind demoSync.m_queries 1 = none ∧
    (1 < demoSync.m_stmts.length → demoSync.m_connectionFlags &&& CONNECTION_ASYNC = 0 →
      ∃ s', demoSync.prepareStatement demoDriver 1 "SELECT 1" CONNECTION_ASYNC = .ok s' ∧
        s'.m_stmts[1]? = some none ∧
        DbConnection.registryFind s'.m_queries 1 = some ("SELECT 1", CONNECTION_ASYNC)) :=
  ⟨by decide,
    (prepareStatement_registers_fresh demoDriver demoSync 1 "SELECT 1" CONNECTION_ASYNC
      (by decide)).2.1⟩

/-- C7: on an open connection (a session is bound), `execute(sql)` and `query(sql)`, and,
for a handle whose slot is materialized, `execute(handle)` and `query(handle)`, always
return (no error reaches the caller) and leave every member of the connection as it was;
when a connector call made during the operation raises a runtime error the returned value
is the sentinel (`false`, `nullptr`), and when none raises it is the value the connector
returned.  The ad hoc operations need no compiled statement, and the handle operations are
covered for every handle and every materialized slot. -/
theorem runtime_error_becomes_sentinel (d : Driver) (s : DbConnection) (sql : String) :
    (∀ c, s.m_pConnection = some c →
      ∃ r s', s.execute_sql d sql = .ok (r, s') ∧ membersUnchanged s s' ∧
      (∀ e, d.createStatement s.driverCalls c = .runtimeError e → r = false) ∧
      (∀ st e, d.createStatement s.driverCalls c = .value st →
        d.execute (s.driverCalls ++ [DriverCall.createStatement c]) st sql = .runtimeError e →
          r = false) ∧
      (∀ st b, d.createStatement s.driverCalls c = .value st →
        d.execute (s.driverCalls ++ [DriverCall.createStatement c]) st sql = .value b →
          r = b)) ∧
    (∀ c, s.m_pConnection = some c →
      ∃ r s', s.query_sql d sql = .ok (r, s') ∧ membersUnchanged s s' ∧
      (∀ e, d.createStatement s.driverCalls c = .runtimeError e → r = none) ∧
      (∀ st e, d.createStatement s.driverCalls c = .value st →
        d.executeQuery (s.driverCalls ++ [DriverCall.createStatement c]) st sql =
          .runtimeError e → r = none) ∧
      (∀ st b, d.createStatement s.driverCalls c = .value st →
        d.executeQuery (s.driverCalls ++ [DriverCall.createStatement c]) st sql = .value b →
          r = b)) ∧
    (∀ (h : PreparedStatement) (p : MysqlPreparedStatement),
      s.m_stmts[h.getIndex]? = some (some p) →
      ∃ r s', s.execute_stmt d (some h) = .ok (r, some (h.setMysqlPS p), s') ∧
      membersUnchanged s s' ∧
      (∀ e, d.bindParameters s.driverCalls p h.params = .runtimeError e → r = false) ∧
      (∀ e, d.bindParameters s.driverCalls p h.params = .value () →
        d.psExecute (s.driverCalls ++ [DriverCall.bindParameters p h.params]) p =
          .runtimeError e → r = false) ∧
      (∀ b, d.bindParameters s.driverCalls p h.params = .value () →
        d.psExecute (s.driverCalls ++ [DriverCall.bindParameters p h.params]) p = .value b →
          r = b)) ∧
    (∀ (h : PreparedStatement) (p : MysqlPreparedStatement),
      s.m_stmts[h.getIndex]? = some (some p) →
      ∃ r s', s.query_stmt d (some h) = .ok (r, some (h.setMysqlPS p), s') ∧
      membersUnchanged s s' ∧
      (∀ e, d.bindParameters s.driverCalls p h.params = .runtimeError e → r = none) ∧
      (∀ e, d.bindParameters s.driverCalls p h.params = .value () →
        d.psExecuteQuery (s.driverCalls ++ [DriverCall.bindParameters p h.params]) p =
          .runtimeError e → r = none) ∧
      (∀ b, d.bindParameters s.driverCalls p h.params = .value () →
        d.psExecuteQuery (s.driverCalls ++ [DriverCall.bindParameters p h.params]) p =
          .value b → r = b)) := by
  refine ⟨?_, ?_, ?_, ?_⟩
  · intro c hc
    cases h1 : d.createStatement s.driverCalls c with
    | runtimeError e =>
      refine ⟨false, (s.record (DriverCall.createStatement c)).logError e, ?_,
        membersUnchanged_grow s _ _, ?_, ?_, ?_⟩
      · simp [DbConnection.execute_sql, hc, h1]
      · intros; rfl
      · intros; rfl
      · intro _ _ h2
        simp_all
    | value st =>
      cases h2 : d.execute (s.driverCalls ++ [DriverCall.createStatement c]) st sql with
      | runtimeError e =>
        refine ⟨false, ((s.record (DriverCall.createStatement c)).record (DriverCall.execute st sql)).logError e, ?_,
          membersUnchanged_grow s _ _, ?_, ?_, ?_⟩
        · simp [DbConnection.execute_sql, hc, h1, h2, DbConnection.record]
        · intros; rfl
        · intros; rfl
        · intro _ _ h3 h4
          simp_all
      | value b =>
        refine ⟨b, (s.record (DriverCall.createStatement c)).record (DriverCall.execute st sql), ?_,
          membersUnchanged_grow s _ _, ?_, ?_, ?_⟩
        · simp [DbConnection.execute_sql, hc, h1, h2, DbConnection.record]
        · intro _ h3
          simp_all
        · intro _ _ h3 h4
          simp_all
        · intro _ _ h3 h4
          simp_all
  · intro c hc
    cases h1 : d.createStatement s.driverCalls c with
    | runtimeError e =>
      refine ⟨none, (s.record (DriverCall.createStatement c)).logError e, ?_,
        membersUnchanged_grow s _ _, ?_, ?_, ?_⟩
      · simp [DbConnection.query_sql, hc, h1]
      · intros; rfl
      · intros; rfl
      · intro _ _ h2
        simp_all
    | value st =>
      cases h2 : d.executeQuery (s.driverCalls ++ [DriverCall.createStatement c]) st sql with
      | runtimeError e =>
        refine ⟨none, ((s.record (DriverCall.createStatement c)).record (DriverCall.executeQuery st sql)).logError e, ?_,
          membersUnchanged_grow s _ _, ?_, ?_, ?_⟩
        · simp [DbConnection.query_sql, hc, h1, h2, DbConnection.record]
        · intros; rfl
        · intros; rfl
        · intro _ _ h3 h4
          simp_all
      | value b =>
        refine ⟨b, (s.record (DriverCall.createStatement c)).record (DriverCall.executeQuery st sql), ?_,
          membersUnchanged_grow s _ _, ?_, ?_, ?_⟩
        · simp [DbConnection.query_sql, hc, h1, h2, DbConnection.record]
        · intro _ h3
          simp_all
        · intro _ _ h3 h4
          simp_all
        · intro _ _ h3 h4
          simp_all
  · intro h p hp
    cases h1 : d.bindParameters s.driverCalls p h.params with
    | runtimeError e =>
      refine ⟨false, (s.record (DriverCall.bindParameters p h.params)).logError e, ?_,
        membersUnchanged_grow s _ _, ?_, ?_, ?_⟩
      · simp [DbConnection.execute_stmt, DbConnection.getPreparedStatement, hp, PreparedStatement.setMysqlPS, h1]
      · intros; rfl
      · intros; rfl
      · intro _ h2
        simp_all
    | value u =>
      cases h2 : d.psExecute (s.driverCalls ++ [DriverCall.bindParameters p h.params]) p with
      | runtimeError e =>
        refine ⟨false, ((s.record (DriverCall.bindParameters p h.params)).record (DriverCall.psExecute p)).logError e, ?_,
          membersUnchanged_grow s _ _, ?_, ?_, ?_⟩
        · simp [DbConnection.execute_stmt, DbConnection.getPreparedStatement, hp, PreparedStatement.setMysqlPS, h1, h2, DbConnection.record]
        · intros; rfl
        · intros; rfl
        · intro _ h3 h4
          simp_all
      | value b =>
        refine ⟨b, (s.record (DriverCall.bindParameters p h.params)).record (DriverCall.psExecute p), ?_,
          membersUnchanged_grow s _ _, ?_, ?_, ?_⟩
        · simp [DbConnection.execute_stmt, DbConnection.getPreparedStatement, hp, PreparedStatement.setMysqlPS, h1, h2, DbConnection.record]
        · intro _ h3
          simp_all
        · intro _ h3 h4
          simp_all
        · intro _ h3 h4
          simp_all
  · intro h p hp
    cases h1 : d.bindParameters s.driverCalls p h.params with
    | runtimeError e =>
      refine ⟨none, (s.record (DriverCall.bindParameters p h.params)).logError e, ?_,
        membersUnchanged_grow s _ _, ?_, ?_, ?_⟩
      · simp [DbConnection.query_stmt, DbConnection.getPreparedStatement, hp, PreparedStatement.setMysqlPS, h1]
      · intros; rfl
      · intros; rfl
      · intro _ h2
        simp_all
    | value u =>
      cases h2 : d.psExecuteQuery (s.driverCalls ++ [DriverCall.bindParameters p h.params]) p with
      | runtimeError e =>
        refine ⟨none, ((s.record (DriverCall.bindParameters p h.params)).record (DriverCall.psExecuteQuery p)).logError e, ?_,
          membersUnchanged_grow s _ _, ?_, ?_, ?_⟩
        · simp [DbConnection.query_stmt, DbConnection.getPreparedStatement, hp, PreparedStatement.setMysqlPS, h1, h2, DbConnection.record]
        · intros; rfl
        · intros; rfl
        · intro _ h3 h4
          simp_all
      | value b =>
        refine ⟨b, (s.record (DriverCall.bindParameters p h.params)).record (DriverCall.psExecuteQuery p), ?_,
          membersUnchanged_grow s _ _, ?_, ?_, ?_⟩
        · simp [DbConnection.query_stmt, DbConnection.getPreparedStatement, hp, PreparedStatement.setMysqlPS, h1, h2, DbConnection.record]
        · intro _ h3
          simp_all
        · intro _ h3 h4
          simp_all
        · intro _ h3 h4
          simp_all

/-- Witness of C7: on `demoSync` (session 1 bound, no compiled statement) the connector
raises for the text `"BAD"`, and `execute("BAD")` returns `false` with every member of the
connection unchanged; on `demoSyncPrepared` (slot 2 materialized) binding a handle with two
parameters raises, and `query(handle)` returns `nullptr` with every member unchanged. -/
theorem runtime_error_becomes_sentinel_witness :
    demoSync.m_pConnection = some 1 ∧
    demoSync.m_stmts = [none, none, none, none] ∧
    (∃ s', demoSync.execute_sql demoDriver "BAD" = .ok (false, s') ∧
      membersUnchanged demoSync s') ∧
    demoSyncPrepared.m_stmts[2]? = some (some 102) ∧
    (∃ s', demoSyncPrepared.query_stmt demoDriver
        (some { m_index := 2, params := ["a", "b"], m_stmt := none }) =
          .ok (none, some { m_index := 2, params := ["a", "b"], m_stmt := some 102 }, s') ∧
      membersUnchanged demoSyncPrepared s') :=
  ⟨by decide, by decide, by
    obtain ⟨r, s', h1, h2, _, h4, _⟩ :=
      (runtime_error_becomes_sentinel demoDriver demoSync "BAD").1 1 (by decide)
    have hr : r = false := h4 2 "syntax error" (by decide) (by decide)
    subst hr
    exact ⟨s', h1, h2⟩,
   by decide, by
    obtain ⟨r, s', h1, h2, h3, _, _⟩ :=
      (runtime_error_becomes_sentinel demoDriver demoSyncPrepared "BAD").2.2.2
        { m_index := 2, params := ["a", "b"], m_stmt := none } 102 (by decide)
    have hr : r = none := h3 "parameter count" (by decide)
    subst hr
    exact ⟨s', h1, h2⟩⟩

/-- Witness of C9: three `lockIfReady()` calls on a freshly constructed connection. -/
theorem lockIfReady_mutually_exclusive_witness :
    1 ≤ 3 ∧ (DbConnection.mkSync demoInfo).m_mutex = false ∧
      (lockIfReadyN (DbConnection.mkSync demoInfo) 3).1.count true = 1 :=
  ⟨by decide, rfl,
    ((lockIfReady_mutually_exclusive (DbConnection.mkSync demoInfo) 3 (by decide)).2.2.1
      rfl).1⟩

/-- C8: on a connection whose `m_prepareError` is clear (as both constructors leave it),
after any sequence of calls that returned, `prepareStatements()` with any hook returns
`false` exactly when some `prepareStatement` call of the sequence or of the hook was a
failed compile (flags intersecting the connection's, connector raising).  No call clears
`m_prepareError` once it is set.  With a session bound and every id of the hook inside the
cache, `prepareStatements()` returns whatever the connector answers, and every
registration of the hook whose flags intersect reaches the connector. -/
theorem prepareStatements_reports_failed_compiles (d : Driver) (s0 s1 : DbConnection)
    (ops : List Op) (hook : List Registration) (hfresh : s0.m_prepareError = false)
    (hrun : run d s0 ops = .ok s1) :
    (∀ b s2, s1.prepareStatements d hook = .ok (b, s2) →
      (b = false ↔ compileFailed d s0 (ops ++ [Op.prepareStatements hook]) = true)) ∧
    (∀ (t t' : DbConnection) (ops' : List Op), run d t ops' = .ok t' →
      t.m_prepareError = true → t'.m_prepareError = true) ∧
    (s1.m_pConnection ≠ none → (∀ r ∈ hook, r.index < s1.m_stmts.length) →
      ∃ b s2, s1.prepareStatements d hook = .ok (b, s2) ∧
        s2.driverCalls.length = s1.driverCalls.length +
          (hook.filter (fun r => s1.m_connectionFlags &&& r.flags != 0)).length) := by
  refine ⟨?_, ?_, ?_⟩
  · intro b s2 h
    unfold DbConnection.prepareStatements at h
    cases h1 : s1.doPrepareStatements d hook with
    | error f => simp [h1] at h
    | ok s3 =>
      simp only [h1, Except.ok.injEq, Prod.mk.injEq] at h
      obtain ⟨hb, rfl⟩ := h
      rw [compileFailed_append d ops _ s0 s1 hrun, compileFailed_singleton, ← hb,
        doPrepareStatements_m_prepareError d hook s1 s3 h1,
        run_m_prepareError d ops s0 s1 hrun, hfresh]
      simp only [opCompileFailed]
      cases compileFailed d s0 ops <;> cases hookCompileFailed d s1 hook <;> simp
  · intro t t' ops' h ht
    rw [run_m_prepareError d ops' t t' h, ht]
    rfl
  · intro hc hb
    obtain ⟨s2, h1, _, _, _, h5⟩ := doPrepareStatements_total d hook s1 hc hb
    exact ⟨!s2.m_prepareError, s2, by simp [DbConnection.prepareStatements, h1], h5⟩

/-- Witness of C8: on `demoSync` the first registration of `demoOps` fails to compile;
the run returns, the hook then registers two more statements, one of them reaching the
connector, and `prepareStatements()` returns `false`. -/
theorem prepareStatements_reports_failed_compiles_witness :
    demoSync.m_prepareError = false ∧
    run demoDriver demoSync demoOps = .ok demoAfterOps ∧
    (∃ b s2, demoAfterOps.prepareStatements demoDriver demoHook = .ok (b, s2) ∧
      s2.driverCalls.length = demoAfterOps.driverCalls.length +
        (demoHook.filter (fun r => demoAfterOps.m_connectionFlags &&& r.flags != 0)).length) ∧
    (demoAfterOps.prepareStatements demoDriver demoHook).map Prod.fst = .ok false ∧
    compileFailed demoDriver demoSync (demoOps ++ [Op.prepareStatements demoHook]) = true :=
  ⟨by decide, by decide,
    (prepareStatements_reports_failed_compiles demoDriver demoSync demoAfterOps demoOps
      demoHook (by decide) (by decide)).2.2 (by decide) (by decide),
    by decide, by decide⟩

end Sapphire
